import Mathlib

/-!
Verification of the pdf-watermark repository (app/utils.py, app/draw.py,
app/handler.py): a shallow embedding of its geometric placement,
box-fitting and page-merging logic, with theorems settling the claims
about it.  Python floats are modelled as rationals where the arithmetic
is purely algebraic and as reals where trigonometry is involved; the
external libraries (reportlab, PyPDF4, matplotlib) are abstracted as
parameters.
-/

namespace PdfWatermark

/-- Embedding of a 2 by 2 matrix over a commutative ring, as built by
numpy.array in app/draw.py lines 185-190 and app/utils.py lines 50-55.
Field a is row 0 column 0, b is row 0 column 1, c is row 1 column 0,
d is row 1 column 1. -/
structure Mat2 (K : Type) where
  a : K
  b : K
  c : K
  d : K

/-- Embedding of numpy transpose as used in app/utils.py line 37. -/
def Mat2.transpose {K : Type} (m : Mat2 K) : Mat2 K :=
  ⟨m.a, m.c, m.b, m.d⟩

/-- Embedding of the matrix-vector product `m @ [[x], [y]]` of
app/utils.py line 37, returning the column vector as a pair. -/
def Mat2.mulVec {K : Type} [Mul K] [Add K] (m : Mat2 K) (x y : K) : K × K :=
  (m.a * x + m.b * y, m.c * x + m.d * y)

/-- Embedding of change_base (app/utils.py lines 34-38): multiply the
transpose of the rotation matrix by the column vector [x, y]. -/
def change_base {K : Type} [Mul K] [Add K] (x y : K) (rotation_matrix : Mat2 K) : K × K :=
  rotation_matrix.transpose.mulVec x y

/-- Embedding of the rotation-matrix literal of app/draw.py lines 185-190
and app/utils.py lines 50-55, parametrised by the cosine and sine values
that the source computes with math.cos and math.sin of the angle in
radians: [[c, -s], [s, c]]. -/
def rotation_matrix {K : Type} [Neg K] (c s : K) : Mat2 K :=
  ⟨c, -s, s, c⟩

/-- Embedding of one grid draw coordinate (app/draw.py lines 156-162 and
app/utils.py lines 82-88): x_base = x_index * horizontal_box_spacing,
y_base = y_index * vertical_box_spacing, each reduced by half a spacing
when the margin flag is set. -/
def grid_point (margin : Bool) (hs vs : ℚ) (i j : ℕ) : ℚ × ℚ :=
  if margin then ((i : ℚ) * hs - hs / 2, (j : ℚ) * vs - vs / 2)
  else ((i : ℚ) * hs, (j : ℚ) * vs)

/-- Embedding of the grid iteration of draw_grid_watermark (app/draw.py
lines 135-172) and of create_watermark_pdf (app/utils.py lines 46-47 and
75-90): spacings are width / horizontal_boxes and height / vertical_boxes,
the start index is 1 when the margin flag is set and 0 otherwise, and the
loops run over range(start_index, horizontal_boxes + 1) and
range(start_index, vertical_boxes + 1), producing the list of pre-rotation
coordinates at which one watermark instance each is drawn. -/
def grid_points (horizontal_boxes vertical_boxes : ℕ) (margin : Bool) (width height : ℚ) :
    List (ℚ × ℚ) :=
  (List.range' (if margin then 1 else 0)
      (horizontal_boxes + 1 - (if margin then 1 else 0))).flatMap
    (fun i =>
      (List.range' (if margin then 1 else 0) (vertical_boxes + 1 - (if margin then 1 else 0))).map
        (fun j => grid_point margin (width / (horizontal_boxes : ℚ))
          (height / (vertical_boxes : ℚ)) i j))

/-- Embedding of the width shrinking step of app/utils.py lines 102-105:
if the image width exceeds the box width, set the width to the box width
and multiply the height by the same ratio. -/
def fit_width_step (image_width image_height max_width : ℚ) : ℚ × ℚ :=
  if max_width < image_width
    then (max_width, image_height * (max_width / image_width))
    else (image_width, image_height)

/-- Embedding of the height shrinking step of app/utils.py lines 106-109
applied to the dimensions left by the width step: if the height exceeds
the box height, set the height to the box height and multiply the width
by that ratio. -/
def fit_height_step (p : ℚ × ℚ) (max_height : ℚ) : ℚ × ℚ :=
  if max_height < p.2
    then (p.1 * (max_height / p.2), max_height)
    else p

/-- Embedding of the box-fitting arithmetic of app/utils.py lines 101-109
(the two proportional shrinking steps in source order, before the scale
factor is applied). -/
def fit_box (image_width image_height max_width max_height : ℚ) : ℚ × ℚ :=
  fit_height_step (fit_width_step image_width image_height max_width) max_height

/-- Embedding of the full fitting arithmetic of app/utils.py lines 101-112
(also the fit_image helper that app/draw.py imports, whose module source
is outside src but whose inline form is these lines): the two shrinking
steps of fit_box followed by multiplying both dimensions by the image
scale factor. -/
def fit_image (image_width image_height max_width max_height scale : ℚ) : ℚ × ℚ :=
  ((fit_box image_width image_height max_width max_height).1 * scale,
   (fit_box image_width image_height max_width max_height).2 * scale)

/-- Embedding of the Alignments enum referenced by app/draw.py. Modelled
from the spec: app/options.py is not under src; the spec names the three
members LEFT, RIGHT and CENTER of an alignment enum, whose .value is a
string. -/
inductive Alignments
  | LEFT
  | RIGHT
  | CENTER

/-- String value of each Alignments member. Modelled from the spec:
app/options.py is not under src; the values only need to be three
distinct strings compared against the horizontal_alignment field. -/
def Alignments.value : Alignments → String
  | Alignments.LEFT => "left"
  | Alignments.RIGHT => "right"
  | Alignments.CENTER => "center"

/-- Embedding of the InsertOptions fields that draw_insert_watermark
reads: the fractional page coordinates x and y and the
horizontal_alignment string. -/
structure InsertOptions where
  x : ℚ
  y : ℚ
  horizontal_alignment : String

/-- Embedding of the DrawingOptions fields that the placement arithmetic
reads: the optional text, the optional image with its natural size as
returned by getSize, and the image scale factor.  The remaining fields
(font, size, colour, opacity, angle) only feed the external drawing
library and the rotation matrix, which is passed separately. -/
structure DrawingOptions where
  text : Option String
  image : Option (ℚ × ℚ)
  image_scale : ℚ

/-- Embedding of the max_image_height computation of app/draw.py
lines 58-60: min(2 * y * height, 2 * (2 * (1 - y) * height)). -/
def max_image_height (specific_options : InsertOptions) (height : ℚ) : ℚ :=
  min (2 * specific_options.y * height)
    (2 * (2 * (1 - specific_options.y) * height))

/-- Embedding of the max_image_width branch of app/draw.py lines 69-83:
x * width for LEFT, (1 - x) * width for RIGHT,
min(2 * (1 - x) * width, 2 * x * width) for CENTER, and a ValueError for
any other alignment string. -/
def max_image_width (specific_options : InsertOptions) (width : ℚ) : Except String ℚ :=
  if specific_options.horizontal_alignment = Alignments.LEFT.value then
    Except.ok (specific_options.x * width)
  else if specific_options.horizontal_alignment = Alignments.RIGHT.value then
    Except.ok ((1 - specific_options.x) * width)
  else if specific_options.horizontal_alignment = Alignments.CENTER.value then
    Except.ok (min (2 * (1 - specific_options.x) * width)
      (2 * specific_options.x * width))
  else
    Except.error "Invalid alignment value."

/-- Embedding of the offset branch of app/draw.py lines 100-112:
minus half the watermark width for LEFT, plus half for RIGHT, zero for
CENTER, and a ValueError for any other alignment string. -/
def insert_offset (horizontal_alignment : String) (watermark_width : ℚ) : Except String ℚ :=
  if horizontal_alignment = Alignments.LEFT.value then
    Except.ok (-(watermark_width / 2))
  else if horizontal_alignment = Alignments.RIGHT.value then
    Except.ok (watermark_width / 2)
  else if horizontal_alignment = Alignments.CENTER.value then
    Except.ok 0
  else
    Except.error "Invalid alignment value."

/-- Embedding of draw_insert_watermark (app/draw.py lines 50-122).  The
string_width parameter abstracts the external stringWidth call of the
drawing library.  When text is present the watermark width is the string
width and the image dimensions stay 0 (the source branch is an elif, so
the image is not fitted); when only an image is present its natural size
is fitted into the alignment-dependent width bound and the margin-derived
height bound and then scaled, and the watermark width is the fitted
width; when neither is present a ValueError is raised.  The result is the
pre-rotation anchor point (x * width + offset, y * height) together with
the image dimensions handed to draw_one_watermark. -/
def draw_insert_watermark (string_width : ℚ) (drawing_options : DrawingOptions)
    (specific_options : InsertOptions) (width height : ℚ) :
    Except String (ℚ × ℚ × ℚ × ℚ) :=
  match drawing_options.text, drawing_options.image with
  | some _, _ =>
    match insert_offset specific_options.horizontal_alignment string_width with
    | Except.ok offset =>
      Except.ok (specific_options.x * width + offset, specific_options.y * height, 0, 0)
    | Except.error e => Except.error e
  | none, some img =>
    match max_image_width specific_options width with
    | Except.ok miw =>
      match fit_image img.1 img.2 miw (max_image_height specific_options height)
          drawing_options.image_scale with
      | (image_width, image_height) =>
        match insert_offset specific_options.horizontal_alignment image_width with
        | Except.ok offset =>
          Except.ok (specific_options.x * width + offset,
            specific_options.y * height, image_width, image_height)
        | Except.error e => Except.error e
    | Except.error e => Except.error e
  | none, none => Except.error "No watermark to draw."

/-- Decides whether a call of the embedded drawing layer raised. -/
def is_error {α : Type} : Except String α → Bool
  | Except.error _ => true
  | Except.ok _ => false

/-- Valid alignment strings: the three Alignments values. -/
def valid_alignment (s : String) : Prop :=
  s = Alignments.LEFT.value ∨ s = Alignments.RIGHT.value ∨ s = Alignments.CENTER.value

/-- Embedding of a PDF page for the composition layer: the media box
dimensions and an abstract content stream (what the external PDF library
stores for the page). -/
structure Page where
  width : ℚ
  height : ℚ
  content : List ℕ

/-- Embedding of the PyPDF4 page.mergePage call of app/handler.py line 39
and app/utils.py line 165: overlay the watermark page content onto the
page, keeping the page box. -/
def mergePage (page watermark : Page) : Page :=
  ⟨page.width, page.height, page.content ++ watermark.content⟩

/-- Embedding of add_watermark_to_pdf (app/handler.py lines 14-43 and
app/utils.py lines 146-169): read the media box of page 0 of the input,
render the single-page watermark canvas at that size (the render
parameter abstracts draw_watermarks writing the temporary file plus
reading its page 0 back), then merge that watermark page onto every input
page in order and collect the pages written to the output.  Reading
pages[0] of an input with no pages raises, embedded as none. -/
def add_watermark_to_pdf (render : ℚ → ℚ → Page) (input : List Page) : Option (List Page) :=
  match input with
  | [] => none
  | p0 :: rest =>
    some ((p0 :: rest).map (fun page => mergePage page (render p0.width p0.height)))

/-- Embedding of the character loop of is_chinese (app/draw.py
lines 237-240 and app/utils.py lines 129-132): scan the characters and
return true on the first one between U+4E00 and U+9FFF. -/
def chinese_scan : List Char → Bool
  | [] => false
  | ch :: rest => if '一' ≤ ch ∧ ch ≤ '鿿' then true else chinese_scan rest

/-- Embedding of is_chinese (app/draw.py lines 233-240 and app/utils.py
lines 125-132) on the character list of the string. -/
def is_chinese (text : String) : Bool :=
  chinese_scan text.data

end PdfWatermark

namespace PdfWatermark

/-- C1: change_base applied with the rotation matrix built from the angle
in degrees converted to radians returns exactly
(x cos t + y sin t, -x sin t + y cos t) for t the angle in radians. -/
theorem change_base_rotation (x y angle : ℝ) :
    change_base x y
      (rotation_matrix (Real.cos (angle * Real.pi / 180)) (Real.sin (angle * Real.pi / 180))) =
    (x * Real.cos (angle * Real.pi / 180) + y * Real.sin (angle * Real.pi / 180),
     -(x * Real.sin (angle * Real.pi / 180)) + y * Real.cos (angle * Real.pi / 180)) := by
  unfold change_base rotation_matrix Mat2.transpose Mat2.mulVec
  simp only [Prod.mk.injEq]
  constructor <;> ring

/-- C6: is_chinese returns true exactly when some character of the text
lies in the inclusive Unicode range U+4E00 to U+9FFF, and in particular
returns false on the empty string. -/
theorem is_chinese_iff :
    (∀ text : String,
      is_chinese text = true ↔ ∃ c ∈ text.data, 0x4e00 ≤ c.toNat ∧ c.toNat ≤ 0x9fff) ∧
    is_chinese "" = false := by
  constructor
  · intro text
    unfold is_chinese
    induction text.data with
    | nil => simp [chinese_scan]
    | cons ch rest ih =>
      by_cases h : '一' ≤ ch ∧ ch ≤ '鿿'
      · simp only [chinese_scan, h, if_true, List.mem_cons]
        constructor
        · intro _
          refine ⟨ch, Or.inl rfl, ?_, ?_⟩
          · exact h.1
          · exact h.2
        · intro _; rfl
      · simp only [chinese_scan, h, if_false, List.mem_cons]
        rw [ih]
        constructor
        · rintro ⟨c, hc, hrange⟩
          exact ⟨c, Or.inr hc, hrange⟩
        · rintro ⟨c, hc | hc, hrange⟩
          · exfalso
            apply h
            rw [hc] at hrange
            exact ⟨hrange.1, hrange.2⟩
          · exact ⟨c, hc, hrange⟩
  · rfl

/-- Helper: the sum of a constant map is the length times the constant. -/
theorem sum_const_map {A : Type} (l : List A) (m : ℕ) :
    (l.map (fun _ => m)).sum = l.length * m := by
  induction l with
  | nil => simp
  | cons a t ih => simp [ih, Nat.succ_mul, Nat.add_comm]

/-- C3 counterexample: with the margin flag set and a 1 by 1 grid, the
grid loop draws 1 instance, not (1+1) by (1+1) = 4. -/
theorem grid_points_count_cex :
    ¬ ((grid_points 1 1 true 1 1).length = (1 + 1) * (1 + 1)) := by decide

/-- C3 amended: the grid drawing operation draws (h+1) by (v+1) watermark
instances when the margin flag is unset, and h by v instances when it is
set (the start index moves to 1 while the stop stays at h+1, v+1). -/
theorem grid_points_count (hb vb : ℕ) (margin : Bool) (w h : ℚ) :
    (grid_points hb vb margin w h).length =
      if margin then hb * vb else (hb + 1) * (vb + 1) := by
  cases margin with
  | false =>
    unfold grid_points
    rw [List.length_flatMap]
    simp only [Bool.false_eq_true, if_false, Nat.sub_zero, Function.comp_def,
      List.length_map, List.length_range']
    rw [sum_const_map]
    simp [List.length_range']
  | true =>
    unfold grid_points
    rw [List.length_flatMap]
    simp only [if_true, Nat.add_sub_cancel, Function.comp_def,
      List.length_map, List.length_range']
    rw [sum_const_map]
    simp [List.length_range']

/-- Helper: a grid point with the margin flag set is the cell corner
shifted down by half a cell, with the half spacing rewritten as the page
dimension over twice the box count. -/
theorem grid_point_margin_eq (w h : ℚ) (hb vb : ℕ) (i j : ℕ) :
    grid_point true (w / (hb : ℚ)) (h / (vb : ℚ)) i j =
      ((i : ℚ) * (w / (hb : ℚ)) - w / (2 * (hb : ℚ)),
       (j : ℚ) * (h / (vb : ℚ)) - h / (2 * (vb : ℚ))) := by
  unfold grid_point
  rw [if_pos rfl]
  simp only [Prod.mk.injEq]
  constructor <;> ring

/-- C4: the pre-rotation grid coordinates are (i * w/hb, j * h/vb) over
indices 0..hb and 0..vb when the margin flag is unset, and each
coordinate is offset by minus half a cell (w/(2 hb), h/(2 vb)) with
indices running from 1 to hb and vb when the margin flag is set. -/
theorem grid_points_coordinates (hb vb : ℕ) (w h : ℚ) :
    grid_points hb vb false w h =
      (List.range' 0 (hb + 1)).flatMap (fun (i : ℕ) =>
        (List.range' 0 (vb + 1)).map (fun (j : ℕ) =>
          ((i : ℚ) * (w / (hb : ℚ)), (j : ℚ) * (h / (vb : ℚ))))) ∧
    grid_points hb vb true w h =
      (List.range' 1 hb).flatMap (fun (i : ℕ) =>
        (List.range' 1 vb).map (fun (j : ℕ) =>
          ((i : ℚ) * (w / (hb : ℚ)) - w / (2 * (hb : ℚ)),
           (j : ℚ) * (h / (vb : ℚ)) - h / (2 * (vb : ℚ))))) := by
  constructor
  · rfl
  · simp only [grid_points, grid_point_margin_eq]
    rfl

/-- C7: merging the watermark onto a nonempty input produces an output
with the same number of pages, in order, each being the corresponding
input page with the rendered watermark page (sized from page 0) merged
onto it. -/
theorem add_watermark_pages (render : ℚ → ℚ → Page) (p0 : Page) (rest : List Page) :
    ∃ out : List Page,
      add_watermark_to_pdf render (p0 :: rest) = some out ∧
      out.length = (p0 :: rest).length ∧
      ∀ i : ℕ, out[i]? =
        Option.map (fun page => mergePage page (render p0.width p0.height)) (p0 :: rest)[i]? := by
  refine ⟨(p0 :: rest).map (fun page => mergePage page (render p0.width p0.height)),
    rfl, List.length_map _ _, ?_⟩
  intro i
  rw [List.getElem?_map]

/-- Helper: the width shrinking step keeps the width within the box
width, keeps both dimensions positive, and scales both dimensions by the
same ratio. -/
theorem fit_width_step_spec (iw ih mw : ℚ) (hiw : 0 < iw) (hih : 0 < ih) (hmw : 0 < mw) :
    (fit_width_step iw ih mw).1 ≤ mw ∧ 0 < (fit_width_step iw ih mw).1 ∧
    0 < (fit_width_step iw ih mw).2 ∧
    (fit_width_step iw ih mw).1 * ih = iw * (fit_width_step iw ih mw).2 := by
  unfold fit_width_step
  by_cases h : mw < iw
  · rw [if_pos h]
    refine ⟨le_refl mw, hmw, mul_pos hih (div_pos hmw hiw), ?_⟩
    have hiw' : iw ≠ 0 := hiw.ne'
    field_simp
    try ring
  · rw [if_neg h]
    exact ⟨le_of_not_lt h, hiw, hih, by ring⟩

/-- Helper: the height shrinking step does not grow the width, keeps the
height within the box height, keeps both dimensions positive, and scales
both dimensions by the same ratio. -/
theorem fit_height_step_spec (p : ℚ × ℚ) (mh : ℚ) (hp1 : 0 < p.1) (hp2 : 0 < p.2)
    (hmh : 0 < mh) :
    (fit_height_step p mh).1 ≤ p.1 ∧ (fit_height_step p mh).2 ≤ mh ∧
    0 < (fit_height_step p mh).1 ∧ 0 < (fit_height_step p mh).2 ∧
    (fit_height_step p mh).1 * p.2 = p.1 * (fit_height_step p mh).2 := by
  unfold fit_height_step
  by_cases h : mh < p.2
  · rw [if_pos h]
    refine ⟨?_, le_refl mh, ?_, hmh, ?_⟩
    · exact mul_le_of_le_one_right (le_of_lt hp1) (le_of_lt ((div_lt_one hp2).mpr h))
    · exact mul_pos hp1 (div_pos hmh hp2)
    · have hp2' : p.2 ≠ 0 := hp2.ne'
      field_simp
      try ring
  · rw [if_neg h]
    exact ⟨le_refl p.1, le_of_not_lt h, hp1, hp2, by ring⟩

/-- Helper: the combined fitting keeps both dimensions inside the box,
keeps them positive, and preserves the cross ratio with the input
dimensions. -/
theorem fit_box_bounds (iw ih mw mh : ℚ) (hiw : 0 < iw) (hih : 0 < ih) (hmw : 0 < mw)
    (hmh : 0 < mh) :
    (fit_box iw ih mw mh).1 ≤ mw ∧ (fit_box iw ih mw mh).2 ≤ mh ∧
    0 < (fit_box iw ih mw mh).1 ∧ 0 < (fit_box iw ih mw mh).2 ∧
    (fit_box iw ih mw mh).1 * ih = iw * (fit_box iw ih mw mh).2 := by
  obtain ⟨w_le, w_pos, h_pos, cross1⟩ := fit_width_step_spec iw ih mw hiw hih hmw
  obtain ⟨le1, le2, pos1, pos2, cross2⟩ :=
    fit_height_step_spec (fit_width_step iw ih mw) mh w_pos h_pos hmh
  refine ⟨le_trans le1 w_le, le2, pos1, pos2, ?_⟩
  have h3 : (fit_box iw ih mw mh).1 * ih * (fit_width_step iw ih mw).2 =
      iw * (fit_box iw ih mw mh).2 * (fit_width_step iw ih mw).2 := by
    calc (fit_box iw ih mw mh).1 * ih * (fit_width_step iw ih mw).2
        = ((fit_height_step (fit_width_step iw ih mw) mh).1 *
            (fit_width_step iw ih mw).2) * ih := by rw [fit_box]; ring
      _ = ((fit_width_step iw ih mw).1 *
            (fit_height_step (fit_width_step iw ih mw) mh).2) * ih := by rw [cross2]
      _ = ((fit_width_step iw ih mw).1 * ih) *
            (fit_height_step (fit_width_step iw ih mw) mh).2 := by ring
      _ = (iw * (fit_width_step iw ih mw).2) *
            (fit_height_step (fit_width_step iw ih mw) mh).2 := by rw [cross1]
      _ = iw * (fit_box iw ih mw mh).2 * (fit_width_step iw ih mw).2 := by rw [fit_box]; ring
  exact mul_right_cancel₀ h_pos.ne' h3

/-- C2: for positive image and box dimensions the fitting arithmetic
keeps the fitted dimensions inside the box before the scale factor is
applied, shrinks proportionally (the fitted cross ratio equals the input
cross ratio), and the returned dimensions are the fitted dimensions
multiplied by the scale factor. -/
theorem fit_image_in_box (iw ih mw mh s : ℚ) (hiw : 0 < iw) (hih : 0 < ih) (hmw : 0 < mw)
    (hmh : 0 < mh) :
    (fit_box iw ih mw mh).1 ≤ mw ∧ (fit_box iw ih mw mh).2 ≤ mh ∧
    (fit_box iw ih mw mh).1 * ih = iw * (fit_box iw ih mw mh).2 ∧
    fit_image iw ih mw mh s = ((fit_box iw ih mw mh).1 * s, (fit_box iw ih mw mh).2 * s) := by
  obtain ⟨le1, le2, _, _, cross⟩ := fit_box_bounds iw ih mw mh hiw hih hmw hmh
  exact ⟨le1, le2, cross, rfl⟩

/-- C2 witness: the fitting of a 4 by 2 image into a 1 by 1 box with
scale factor 3 satisfies the bounds, the proportionality and the scaling
equation. -/
theorem fit_image_in_box_witness :
    (fit_box 4 2 1 1).1 ≤ 1 ∧ (fit_box 4 2 1 1).2 ≤ 1 ∧
    (fit_box 4 2 1 1).1 * 2 = 4 * (fit_box 4 2 1 1).2 ∧
    fit_image 4 2 1 1 3 = ((fit_box 4 2 1 1).1 * 3, (fit_box 4 2 1 1).2 * 3) :=
  fit_image_in_box 4 2 1 1 3 (by norm_num) (by norm_num) (by norm_num) (by norm_num)

/-- C9 counterexample: with positive image and box dimensions but scale
factor 0 the returned dimensions are (0, 0), whose ratio 0/0 = 0 differs
from the input ratio. -/
theorem fit_ratio_cex :
    (0 : ℚ) < 4 ∧ (0 : ℚ) < 2 ∧ (0 : ℚ) < 1 ∧
    (fit_image 4 2 1 1 0).1 / (fit_image 4 2 1 1 0).2 ≠ 4 / 2 := by
  refine ⟨by norm_num, by norm_num, by norm_num, ?_⟩
  norm_num [fit_image, fit_box, fit_width_step, fit_height_step]

/-- C9 amended: for positive image and box dimensions and a nonzero scale
factor the fitting arithmetic preserves the aspect ratio, both after the
fitting steps and after the scale factor is applied. -/
theorem fit_ratio_preserved (iw ih mw mh s : ℚ) (hiw : 0 < iw) (hih : 0 < ih) (hmw : 0 < mw)
    (hmh : 0 < mh) (hs : s ≠ 0) :
    (fit_box iw ih mw mh).1 / (fit_box iw ih mw mh).2 = iw / ih ∧
    (fit_image iw ih mw mh s).1 / (fit_image iw ih mw mh s).2 = iw / ih := by
  obtain ⟨_, _, pos1, pos2, cross⟩ := fit_box_bounds iw ih mw mh hiw hih hmw hmh
  have h1 : (fit_box iw ih mw mh).1 / (fit_box iw ih mw mh).2 = iw / ih := by
    rw [div_eq_div_iff pos2.ne' hih.ne']
    exact cross
  refine ⟨h1, ?_⟩
  show ((fit_box iw ih mw mh).1 * s) / ((fit_box iw ih mw mh).2 * s) = iw / ih
  rw [mul_div_mul_right _ _ hs]
  exact h1

/-- C9 witness: the fitting of a 4 by 2 image into a 1 by 1 box with
scale factor 3 preserves the ratio 4/2 before and after scaling. -/
theorem fit_ratio_preserved_witness :
    (fit_box 4 2 1 1).1 / (fit_box 4 2 1 1).2 = 4 / 2 ∧
    (fit_image 4 2 1 1 3).1 / (fit_image 4 2 1 1 3).2 = 4 / 2 :=
  fit_ratio_preserved 4 2 1 1 3 (by norm_num) (by norm_num) (by norm_num) (by norm_num)
    (by norm_num)

/-- C5: the anchor point handed to the drawing step by the insert layout
is (x * width + offset, y * height), where the offset is minus half the
rendered watermark width for LEFT, plus half for RIGHT, and zero for
CENTER; for a text watermark the rendered width is the string width, for
an image watermark it is the fitted image width. -/
theorem insert_anchor (string_width s x y w h iw ih : ℚ) (img : Option (ℚ × ℚ)) (t : String) :
    draw_insert_watermark string_width ⟨some t, img, s⟩ ⟨x, y, Alignments.LEFT.value⟩ w h =
      Except.ok (x * w + -(string_width / 2), y * h, 0, 0) ∧
    draw_insert_watermark string_width ⟨some t, img, s⟩ ⟨x, y, Alignments.RIGHT.value⟩ w h =
      Except.ok (x * w + string_width / 2, y * h, 0, 0) ∧
    draw_insert_watermark string_width ⟨some t, img, s⟩ ⟨x, y, Alignments.CENTER.value⟩ w h =
      Except.ok (x * w + 0, y * h, 0, 0) ∧
    draw_insert_watermark string_width ⟨none, some (iw, ih), s⟩ ⟨x, y, Alignments.LEFT.value⟩ w h =
      Except.ok (x * w +
        -((fit_image iw ih (x * w) (max_image_height ⟨x, y, Alignments.LEFT.value⟩ h) s).1 / 2),
        y * h,
        (fit_image iw ih (x * w) (max_image_height ⟨x, y, Alignments.LEFT.value⟩ h) s).1,
        (fit_image iw ih (x * w) (max_image_height ⟨x, y, Alignments.LEFT.value⟩ h) s).2) ∧
    draw_insert_watermark string_width ⟨none, some (iw, ih), s⟩ ⟨x, y, Alignments.RIGHT.value⟩ w h =
      Except.ok (x * w +
        (fit_image iw ih ((1 - x) * w)
          (max_image_height ⟨x, y, Alignments.RIGHT.value⟩ h) s).1 / 2,
        y * h,
        (fit_image iw ih ((1 - x) * w) (max_image_height ⟨x, y, Alignments.RIGHT.value⟩ h) s).1,
        (fit_image iw ih ((1 - x) * w) (max_image_height ⟨x, y, Alignments.RIGHT.value⟩ h) s).2) ∧
    draw_insert_watermark string_width ⟨none, some (iw, ih), s⟩ ⟨x, y, Alignments.CENTER.value⟩ w h =
      Except.ok (x * w + 0, y * h,
        (fit_image iw ih (min (2 * (1 - x) * w) (2 * x * w))
          (max_image_height ⟨x, y, Alignments.CENTER.value⟩ h) s).1,
        (fit_image iw ih (min (2 * (1 - x) * w) (2 * x * w))
          (max_image_height ⟨x, y, Alignments.CENTER.value⟩ h) s).2) :=
  ⟨rfl, rfl, rfl, rfl, rfl, rfl⟩

/-- C10: in the image-only insert path the width bound handed to the
fitting step is x * width for LEFT, (1 - x) * width for RIGHT and
min(2 (1 - x) width, 2 x width) for CENTER, while the height bound equals
min(2 y height, 4 (1 - y) height) whatever the alignment string is. -/
theorem insert_image_bounds (string_width s x y w h iw ih : ℚ) (a b : String) :
    max_image_width ⟨x, y, Alignments.LEFT.value⟩ w = Except.ok (x * w) ∧
    max_image_width ⟨x, y, Alignments.RIGHT.value⟩ w = Except.ok ((1 - x) * w) ∧
    max_image_width ⟨x, y, Alignments.CENTER.value⟩ w =
      Except.ok (min (2 * (1 - x) * w) (2 * x * w)) ∧
    max_image_height ⟨x, y, a⟩ h = min (2 * y * h) (4 * (1 - y) * h) ∧
    max_image_height ⟨x, y, a⟩ h = max_image_height ⟨x, y, b⟩ h ∧
    draw_insert_watermark string_width ⟨none, some (iw, ih), s⟩ ⟨x, y, Alignments.CENTER.value⟩ w h =
      Except.ok (x * w + 0, y * h,
        (fit_image iw ih (min (2 * (1 - x) * w) (2 * x * w))
          (max_image_height ⟨x, y, Alignments.CENTER.value⟩ h) s).1,
        (fit_image iw ih (min (2 * (1 - x) * w) (2 * x * w))
          (max_image_height ⟨x, y, Alignments.CENTER.value⟩ h) s).2) := by
  refine ⟨rfl, rfl, rfl, ?_, rfl, rfl⟩
  have e : (2 : ℚ) * (2 * (1 - y) * h) = 4 * (1 - y) * h := by ring
  unfold max_image_height
  rw [e]

/-- C8 counterexample: with a valid CENTER alignment but neither text nor
image, draw_insert_watermark still raises, so an error is not raised only
on invalid alignment values. -/
theorem insert_error_cex :
    valid_alignment Alignments.CENTER.value ∧
    draw_insert_watermark 0 ⟨none, none, 1⟩ ⟨0, 0, Alignments.CENTER.value⟩ 1 1 =
      Except.error "No watermark to draw." :=
  ⟨Or.inr (Or.inr rfl), rfl⟩

/-- C8 amended: draw_insert_watermark raises exactly when the alignment
string is none of LEFT, RIGHT, CENTER, or when there is no watermark to
draw (both text and image absent). -/
theorem insert_error_iff (string_width w h : ℚ) (dop : DrawingOptions) (so : InsertOptions) :
    is_error (draw_insert_watermark string_width dop so w h) = true ↔
      (¬ valid_alignment so.horizontal_alignment ∨
        (dop.text = none ∧ dop.image = none)) := by
  obtain ⟨t, im, s⟩ := dop
  obtain ⟨x, y, a⟩ := so
  simp only [valid_alignment, Alignments.value]
  by_cases hL : a = "left"
  · subst hL
    cases t <;> cases im <;>
      simp [draw_insert_watermark, insert_offset, max_image_width, fit_image,
        is_error, Alignments.value]
  · by_cases hR : a = "right"
    · subst hR
      cases t <;> cases im <;>
        simp [draw_insert_watermark, insert_offset, max_image_width, fit_image,
          is_error, Alignments.value]
    · by_cases hC : a = "center"
      · subst hC
        cases t <;> cases im <;>
          simp [draw_insert_watermark, insert_offset, max_image_width, fit_image,
            is_error, Alignments.value]
      · cases t <;> cases im <;>
          simp [draw_insert_watermark, insert_offset, max_image_width, fit_image,
            is_error, Alignments.value, hL, hR, hC]

end PdfWatermark
